import Mathlib

/-!
Shallow embedding of the ritual type-bridging core: the operator catalog
(`cpp_operators.rs`) and the host-type / qualified-name model
(`rust_type.rs`), together with proofs of the spec's testable properties.
Rust `Option<T>` is `Option T`, `Vec<T>` is `List T`, `String` is `String`,
`i32` arities are `Int` (all values are 0, 1 or 2, far from overflow).
A Rust function that can hit an `assert!`/`unimplemented!` panic is embedded
as an `Option`-returning function where `none` marks the panic.
-/

namespace Ritual

/-- Modelled from the spec: the payload of the conversion operator is "the
target type being converted to", a native type defined in `cpp_type.rs`,
which is not among the provided sources. Its internal structure is never
inspected by the operator catalog, so it is modelled as an opaque
identifier-carrying structure. -/
structure CppType where
  id : Nat
deriving DecidableEq, Repr

/-- The operator vocabulary of `cpp_operators.rs` (enum `CppOperator`). -/
inductive CppOperator where
  | Conversion (t : CppType)
  | Assignment
  | Addition
  | Subtraction
  | UnaryPlus
  | UnaryMinus
  | Multiplication
  | Division
  | Modulo
  | PrefixIncrement
  | PostfixIncrement
  | PrefixDecrement
  | PostfixDecrement
  | EqualTo
  | NotEqualTo
  | GreaterThan
  | LessThan
  | GreaterThanOrEqualTo
  | LessThanOrEqualTo
  | LogicalNot
  | LogicalAnd
  | LogicalOr
  | BitwiseNot
  | BitwiseAnd
  | BitwiseOr
  | BitwiseXor
  | BitwiseLeftShift
  | BitwiseRightShift
  | AdditionAssignment
  | SubtractionAssignment
  | MultiplicationAssignment
  | DivisionAssignment
  | ModuloAssignment
  | BitwiseAndAssignment
  | BitwiseOrAssignment
  | BitwiseXorAssignment
  | BitwiseLeftShiftAssignment
  | BitwiseRightShiftAssignment
  | Subscript
  | Indirection
  | AddressOf
  | StructureDereference
  | PointerToMember
  | FunctionCall
  | Comma
  | New
  | NewArray
  | Delete
  | DeleteArray
deriving DecidableEq, Repr

/-- `struct OperatorInfo` of `cpp_operators.rs`. -/
structure OperatorInfo where
  function_name_suffix : Option String
  arguments_count : Int
  allows_variable_arguments : Bool
deriving DecidableEq, Repr

/-- The local helper `oi` inside `CppOperator::info`. -/
def oi (suffix : String) (count : Int) : OperatorInfo :=
  { function_name_suffix := some suffix
    arguments_count := count
    allows_variable_arguments := false }

/-- `CppOperator::info` of `cpp_operators.rs`. -/
def CppOperator.info : CppOperator → OperatorInfo
  | .Conversion _ =>
    { function_name_suffix := none
      arguments_count := 1
      allows_variable_arguments := false }
  | .Assignment => oi "=" 2
  | .Addition => oi "+" 2
  | .Subtraction => oi "-" 2
  | .UnaryPlus => oi "+" 1
  | .UnaryMinus => oi "-" 1
  | .Multiplication => oi "*" 2
  | .Division => oi "/" 2
  | .Modulo => oi "%" 2
  | .PrefixIncrement => oi "++" 1
  | .PostfixIncrement => oi "++" 2
  | .PrefixDecrement => oi "--" 1
  | .PostfixDecrement => oi "--" 2
  | .EqualTo => oi "==" 2
  | .NotEqualTo => oi "!=" 2
  | .GreaterThan => oi ">" 2
  | .LessThan => oi "<" 2
  | .GreaterThanOrEqualTo => oi ">=" 2
  | .LessThanOrEqualTo => oi "<=" 2
  | .LogicalNot => oi "!" 1
  | .LogicalAnd => oi "&&" 2
  | .LogicalOr => oi "||" 2
  | .BitwiseNot => oi "~" 1
  | .BitwiseAnd => oi "&" 2
  | .BitwiseOr => oi "|" 2
  | .BitwiseXor => oi "^" 2
  | .BitwiseLeftShift => oi "<<" 2
  | .BitwiseRightShift => oi ">>" 2
  | .AdditionAssignment => oi "+=" 2
  | .SubtractionAssignment => oi "-=" 2
  | .MultiplicationAssignment => oi "*=" 2
  | .DivisionAssignment => oi "/=" 2
  | .ModuloAssignment => oi "%=" 2
  | .BitwiseAndAssignment => oi "&=" 2
  | .BitwiseOrAssignment => oi "|=" 2
  | .BitwiseXorAssignment => oi "^=" 2
  | .BitwiseLeftShiftAssignment => oi "<<=" 2
  | .BitwiseRightShiftAssignment => oi ">>=" 2
  | .Subscript => oi "[]" 2
  | .Indirection => oi "*" 1
  | .AddressOf => oi "&" 1
  | .StructureDereference => oi "->" 1
  | .PointerToMember => oi "->*" 2
  | .FunctionCall =>
    { function_name_suffix := some "()"
      arguments_count := 0
      allows_variable_arguments := true }
  | .Comma => oi "," 2
  | .New => oi "new" 2
  | .NewArray => oi "new[]" 2
  | .Delete => oi "delete" 2
  | .DeleteArray => oi "delete[]" 2

/-- `CppOperator::c_name` of `cpp_operators.rs`. Its body is
`unimplemented!()`, which panics for every input; the panic is embedded as
`none`, so the function never produces a string. -/
def CppOperator.c_name (_ : CppOperator) : Option String :=
  none

/-- Whether an operator is the data-carrying `Conversion` variant. -/
def CppOperator.is_conversion : CppOperator → Bool
  | .Conversion _ => true
  | _ => false

/-- All operator variants other than `Conversion` (the `Conversion` family is
excluded because it carries a payload and has no name suffix). -/
def nonConversionOperators : List CppOperator :=
  [.Assignment, .Addition, .Subtraction, .UnaryPlus, .UnaryMinus,
   .Multiplication, .Division, .Modulo, .PrefixIncrement, .PostfixIncrement,
   .PrefixDecrement, .PostfixDecrement, .EqualTo, .NotEqualTo, .GreaterThan,
   .LessThan, .GreaterThanOrEqualTo, .LessThanOrEqualTo, .LogicalNot,
   .LogicalAnd, .LogicalOr, .BitwiseNot, .BitwiseAnd, .BitwiseOr,
   .BitwiseXor, .BitwiseLeftShift, .BitwiseRightShift, .AdditionAssignment,
   .SubtractionAssignment, .MultiplicationAssignment, .DivisionAssignment,
   .ModuloAssignment, .BitwiseAndAssignment, .BitwiseOrAssignment,
   .BitwiseXorAssignment, .BitwiseLeftShiftAssignment,
   .BitwiseRightShiftAssignment, .Subscript, .Indirection, .AddressOf,
   .StructureDereference, .PointerToMember, .FunctionCall, .Comma, .New,
   .NewArray, .Delete, .DeleteArray]

/-- Modelled from the spec: the separator-join helper used by
`rust_type.rs` (`utils::JoinWithString`, whose source is not among the
provided files): it joins a sequence of strings with the given separator,
the same behaviour as `Vec::join`. -/
def join_with (sep : String) (l : List String) : String :=
  String.intercalate sep l

/-- `enum RustTypeIndirection` of `rust_type.rs`. -/
inductive RustTypeIndirection where
  | None
  | Ptr
  | Ref (lifetime : Option String)
  | PtrPtr
deriving DecidableEq, Repr

/-- `struct RustName` of `rust_type.rs`. -/
structure RustName where
  parts : List String
deriving DecidableEq, Repr

/-- `RustName::new` of `rust_type.rs`: `assert!(parts.len() > 0)` then wrap.
The assertion panic on an empty list is embedded as `none`. -/
def RustName.new (parts : List String) : Option RustName :=
  if parts.length > 0 then some { parts := parts } else none

/-- `RustName::crate_name` of `rust_type.rs`: the first segment when the
name has more than one segment, otherwise `None`. (Its `assert!` only fires
on the empty list, which `RustName::new` rejects.) -/
def RustName.crate_name (n : RustName) : Option String :=
  if 1 < n.parts.length then n.parts.head? else none

/-- `RustName::last_name` of `rust_type.rs`: `parts.last().unwrap()`. The
unwrap panic is only reachable for the empty list, which `RustName::new`
rejects; the empty list is mapped to the empty string here. -/
def RustName.last_name (n : RustName) : String :=
  n.parts.getLastD ""

/-- `RustName::full_name` of `rust_type.rs`: when a current crate is given
and equals this name's crate, render `::` followed by the remaining
segments; otherwise join all segments with `::`. -/
def RustName.full_name (n : RustName) (current_crate : Option String) : String :=
  match current_crate, n.crate_name with
  | some cur, some cn =>
    if cur = cn then "::" ++ join_with "::" (n.parts.drop 1)
    else join_with "::" n.parts
  | _, _ => join_with "::" n.parts

/-- `enum RustType` of `rust_type.rs`. -/
inductive RustType where
  | Void
  | NonVoid (base : RustName) (generic_arguments : Option (List RustType))
      (is_const : Bool) (indirection : RustTypeIndirection) (is_option : Bool)

mutual

/-- `RustType::caption` of `rust_type.rs`: `None` for `Void`; for a named
type, the last path segment, extended for a generic type with `_` and the
underscore-joined captions of the generic arguments. -/
def RustType.caption : RustType → Option String
  | .Void => none
  | .NonVoid base ga _ _ _ =>
    match ga with
    | some args => some (base.last_name ++ "_" ++ join_with "_" (captionList args))
    | none => some base.last_name

/-- The `args.iter().map(|x| x.caption().unwrap_or(String::new()))` part of
`RustType::caption`, written as explicit recursion over the list. -/
def captionList : List RustType → List String
  | [] => []
  | x :: xs => (RustType.caption x).getD "" :: captionList xs

end

/-- `RustType::with_lifetime` of `rust_type.rs`: clone the value; when it is
`NonVoid` with a `Ref` indirection, `assert!` that the lifetime is absent
and fill it in. The assertion panic (lifetime already present) is embedded
as `none`; every other input is returned unchanged. -/
def RustType.with_lifetime : RustType → String → Option RustType
  | .Void, _ => some .Void
  | .NonVoid base ga c ind opt, nl =>
    match ind with
    | .Ref Option.none => some (.NonVoid base ga c (.Ref (some nl)) opt)
    | .Ref (some _) => none
    | ind => some (.NonVoid base ga c ind opt)

/-- Claim C1: the operator catalog's `info` function is defined, without
failure, for every `Operator` variant (it is a total Lean function, and the
conjunction below inspects every variant), and the arity it reports matches
the reference table: every unary operator reports arity 1, every canonical
binary operator reports arity 2, the call operator reports arity 0 with
variable arity true, and postfix increment/decrement report arity 2. -/
theorem C1_info_exhaustive_and_arity_law :
    (∀ t, (CppOperator.Conversion t).info.arguments_count = 1) ∧
    (CppOperator.UnaryPlus.info.arguments_count = 1 ∧
     CppOperator.UnaryMinus.info.arguments_count = 1 ∧
     CppOperator.LogicalNot.info.arguments_count = 1 ∧
     CppOperator.BitwiseNot.info.arguments_count = 1 ∧
     CppOperator.Indirection.info.arguments_count = 1 ∧
     CppOperator.AddressOf.info.arguments_count = 1 ∧
     CppOperator.PrefixIncrement.info.arguments_count = 1 ∧
     CppOperator.PrefixDecrement.info.arguments_count = 1 ∧
     CppOperator.StructureDereference.info.arguments_count = 1) ∧
    (CppOperator.Assignment.info.arguments_count = 2 ∧
     CppOperator.Addition.info.arguments_count = 2 ∧
     CppOperator.Subtraction.info.arguments_count = 2 ∧
     CppOperator.Multiplication.info.arguments_count = 2 ∧
     CppOperator.Division.info.arguments_count = 2 ∧
     CppOperator.Modulo.info.arguments_count = 2 ∧
     CppOperator.EqualTo.info.arguments_count = 2 ∧
     CppOperator.NotEqualTo.info.arguments_count = 2 ∧
     CppOperator.GreaterThan.info.arguments_count = 2 ∧
     CppOperator.LessThan.info.arguments_count = 2 ∧
     CppOperator.GreaterThanOrEqualTo.info.arguments_count = 2 ∧
     CppOperator.LessThanOrEqualTo.info.arguments_count = 2 ∧
     CppOperator.LogicalAnd.info.arguments_count = 2 ∧
     CppOperator.LogicalOr.info.arguments_count = 2 ∧
     CppOperator.BitwiseAnd.info.arguments_count = 2 ∧
     CppOperator.BitwiseOr.info.arguments_count = 2 ∧
     CppOperator.BitwiseXor.info.arguments_count = 2 ∧
     CppOperator.BitwiseLeftShift.info.arguments_count = 2 ∧
     CppOperator.BitwiseRightShift.info.arguments_count = 2 ∧
     CppOperator.AdditionAssignment.info.arguments_count = 2 ∧
     CppOperator.SubtractionAssignment.info.arguments_count = 2 ∧
     CppOperator.MultiplicationAssignment.info.arguments_count = 2 ∧
     CppOperator.DivisionAssignment.info.arguments_count = 2 ∧
     CppOperator.ModuloAssignment.info.arguments_count = 2 ∧
     CppOperator.BitwiseAndAssignment.info.arguments_count = 2 ∧
     CppOperator.BitwiseOrAssignment.info.arguments_count = 2 ∧
     CppOperator.BitwiseXorAssignment.info.arguments_count = 2 ∧
     CppOperator.BitwiseLeftShiftAssignment.info.arguments_count = 2 ∧
     CppOperator.BitwiseRightShiftAssignment.info.arguments_count = 2 ∧
     CppOperator.Subscript.info.arguments_count = 2 ∧
     CppOperator.Comma.info.arguments_count = 2 ∧
     CppOperator.PointerToMember.info.arguments_count = 2 ∧
     CppOperator.New.info.arguments_count = 2 ∧
     CppOperator.NewArray.info.arguments_count = 2 ∧
     CppOperator.Delete.info.arguments_count = 2 ∧
     CppOperator.DeleteArray.info.arguments_count = 2) ∧
    (CppOperator.FunctionCall.info.arguments_count = 0 ∧
     CppOperator.FunctionCall.info.allows_variable_arguments = true) ∧
    (CppOperator.PostfixIncrement.info.arguments_count = 2 ∧
     CppOperator.PostfixDecrement.info.arguments_count = 2) :=
  ⟨fun _ => rfl, by decide, by decide, by decide, by decide⟩

/-- Claim C2: assigning a lifetime to a `Ref` indirection whose lifetime is
absent succeeds and the result carries the assigned lifetime; a second
assignment on a `Ref` whose lifetime is already present hits the
`assert!` (the `LifetimeConflict` defect, embedded as `none`), so the
existing lifetime is never silently overwritten. -/
theorem C2_with_lifetime_assign_once :
    (∀ base ga c opt nl,
       RustType.with_lifetime (.NonVoid base ga c (.Ref Option.none) opt) nl =
         some (.NonVoid base ga c (.Ref (some nl)) opt)) ∧
    (∀ base ga c opt old nl,
       RustType.with_lifetime (.NonVoid base ga c (.Ref (some old)) opt) nl =
         none) :=
  ⟨fun _ _ _ _ _ => rfl, fun _ _ _ _ _ _ => rfl⟩

/-- Claim C6: the conversion operator's info has no symbol text, arity
exactly 1, and variable arity false, for every payload type it carries. -/
theorem C6_conversion_info :
    ∀ t, (CppOperator.Conversion t).info =
      { function_name_suffix := none
        arguments_count := 1
        allows_variable_arguments := false } :=
  fun _ => rfl

/-- Claim C8, counterexample: `c_name` does not return a textual token for
the assignment operator (its body is `unimplemented!()`, which panics), so
it does not return a deterministic identifying token for every operator. -/
theorem C8_counterexample_c_name_returns_nothing :
    ¬ ∃ s, CppOperator.Assignment.c_name = some s := by
  intro h
  obtain ⟨s, hs⟩ := h
  exact Option.noConfusion hs

/-- Claim C8, amended: `c_name` is an unimplemented stub that fails
(panics) for every operator; it returns no token at all, and the
deterministic collision-free naming scheme remains an open design choice
rather than implemented behaviour. -/
theorem C8_c_name_unimplemented :
    ∀ op : CppOperator, op.c_name = none :=
  fun _ => rfl

/-- Claim C9: for `Void` and for every `NonVoid` with indirection `None`,
`Ptr` or `PtrPtr`, and for every lifetime name, `with_lifetime` returns a
value equal to its input: lifetime assignment on a non-`Ref` indirection is
a silent no-op, not a failure. -/
theorem C9_with_lifetime_noop_on_non_reference :
    (∀ nl, RustType.with_lifetime .Void nl = some .Void) ∧
    (∀ base ga c opt nl,
       RustType.with_lifetime (.NonVoid base ga c .None opt) nl =
         some (.NonVoid base ga c .None opt)) ∧
    (∀ base ga c opt nl,
       RustType.with_lifetime (.NonVoid base ga c .Ptr opt) nl =
         some (.NonVoid base ga c .Ptr opt)) ∧
    (∀ base ga c opt nl,
       RustType.with_lifetime (.NonVoid base ga c .PtrPtr opt) nl =
         some (.NonVoid base ga c .PtrPtr opt)) :=
  ⟨fun _ => rfl, fun _ _ _ _ _ => rfl, fun _ _ _ _ _ => rfl,
   fun _ _ _ _ _ => rfl⟩

/-- Claim C3: display of a qualified name relative to a scope. The three
reference cases of the spec hold, and in general the scope-relative
rendering (leading separator, segments after the first) applies exactly
when the current scope is present and equals the first segment of a
multi-segment name; otherwise all segments are joined by the separator. -/
theorem C3_full_name_scope_relative :
    (RustName.full_name { parts := ["foo", "Bar"] } (some "foo") = "::Bar") ∧
    (RustName.full_name { parts := ["foo", "Bar"] } (some "other") = "foo::Bar") ∧
    (RustName.full_name { parts := ["foo", "Bar"] } none = "foo::Bar") ∧
    (∀ parts cs,
       RustName.full_name { parts := parts } cs =
         if 1 < parts.length ∧ cs.isSome ∧ cs = parts.head? then
           "::" ++ join_with "::" (parts.drop 1)
         else join_with "::" parts) := by
  refine ⟨by decide, by decide, by decide, ?_⟩
  intro parts cs
  cases cs with
  | none =>
    simp [RustName.full_name]
  | some cur =>
    match parts with
    | [] => simp [RustName.full_name, RustName.crate_name]
    | [p] => simp [RustName.full_name, RustName.crate_name]
    | p :: q :: qs =>
      have hcn : RustName.crate_name { parts := p :: q :: qs } = some p := by
        simp [RustName.crate_name]
      by_cases h : cur = p
      · subst h
        simp [RustName.full_name, hcn]
      · simp [RustName.full_name, hcn, h]

/-- The recursion `captionList` computes exactly the mapped list of
defaulted captions used by `RustType::caption` for generic arguments. -/
theorem captionList_eq_map (l : List RustType) :
    captionList l = l.map (fun x => (RustType.caption x).getD "") := by
  induction l with
  | nil => rfl
  | cons x xs ih => simp [captionList, ih]

/-- Claim C4: caption of `Void` is absent; caption of a non-generic named
type is its last path segment; caption of a generic type is the local
segment, an underscore, and the underscore-joined recursively computed
captions of its generic arguments, e.g. base "Vec" with one argument
captioning to "I32" yields "Vec_I32". -/
theorem C4_caption_law :
    (RustType.caption .Void = none) ∧
    (RustType.caption
       (.NonVoid { parts := ["Vec"] }
         (some [.NonVoid { parts := ["I32"] } none false .None false])
         false .None false) = some "Vec_I32") ∧
    (∀ parts c ind opt (h : parts ≠ []),
       RustType.caption (.NonVoid { parts := parts } none c ind opt) =
         some (parts.getLast h)) ∧
    (∀ base args c ind opt,
       RustType.caption (.NonVoid base (some args) c ind opt) =
         some (base.last_name ++ "_" ++
           join_with "_" (args.map (fun x => (RustType.caption x).getD "")))) := by
  refine ⟨rfl, by decide, ?_, ?_⟩
  · intro parts c ind opt h
    simp [RustType.caption, RustName.last_name, List.getLastD_eq_getLast?,
      List.getLast?_eq_getLast parts h]
  · intro base args c ind opt
    simp [RustType.caption, captionList_eq_map]

/-- Witness for C4: the non-generic case at a concrete two-segment name. -/
theorem C4_caption_law_witness :
    RustType.caption
        (.NonVoid { parts := ["a", "Widget"] } none false .None false) =
      some "Widget" :=
  C4_caption_law.2.2.1 ["a", "Widget"] false .None false (by decide)

/-- Claim C5: constructing a qualified name from an empty segment list
always fails (the `InvalidName` assertion, embedded as `none`), and every
successfully constructed name has a non-empty parts list, so its last
segment is defined and is what `last_name` returns. -/
theorem C5_new_rejects_empty :
    (RustName.new [] = none) ∧
    (∀ parts n, RustName.new parts = some n →
       n.parts ≠ [] ∧ n.parts.getLast? = some n.last_name) := by
  refine ⟨rfl, ?_⟩
  intro parts n h
  rw [RustName.new] at h
  by_cases hl : parts.length > 0
  · rw [if_pos hl] at h
    obtain rfl := Option.some.inj h
    have hne : parts ≠ [] := by
      intro hnil
      rw [hnil] at hl
      exact absurd hl (by decide)
    refine ⟨hne, ?_⟩
    simp [RustName.last_name, List.getLastD_eq_getLast?,
      List.getLast?_eq_getLast parts hne]
  · rw [if_neg hl] at h
    exact absurd h (by simp)

/-- Witness for C5: a successfully constructed one-segment name. -/
theorem C5_new_rejects_empty_witness :
    ({ parts := ["x"] } : RustName).parts ≠ [] ∧
    ({ parts := ["x"] } : RustName).parts.getLast? =
      some (RustName.last_name { parts := ["x"] }) :=
  C5_new_rejects_empty.2 ["x"] { parts := ["x"] } rfl

/-- Claim C7: lifetime assignment is a pure transform (the embedding takes
and returns values, never mutating): whenever it succeeds, every field of
the result other than the indirection (base, generic arguments, constness,
optionality) equals the corresponding field of the input, and the
indirection itself is unchanged except that a `Ref` without a lifetime
gains the assigned one. -/
theorem C7_with_lifetime_frame :
    (∀ nl, RustType.with_lifetime .Void nl = some .Void) ∧
    (∀ base ga c ind opt nl r,
       RustType.with_lifetime (.NonVoid base ga c ind opt) nl = some r →
       ∃ ind2, r = .NonVoid base ga c ind2 opt ∧
         (ind2 = ind ∨
          (ind = .Ref Option.none ∧ ind2 = .Ref (some nl)))) := by
  refine ⟨fun _ => rfl, ?_⟩
  intro base ga c ind opt nl r h
  cases ind with
  | None =>
    obtain rfl := Option.some.inj h
    exact ⟨_, rfl, Or.inl rfl⟩
  | Ptr =>
    obtain rfl := Option.some.inj h
    exact ⟨_, rfl, Or.inl rfl⟩
  | PtrPtr =>
    obtain rfl := Option.some.inj h
    exact ⟨_, rfl, Or.inl rfl⟩
  | Ref lt =>
    cases lt with
    | none =>
      obtain rfl := Option.some.inj h
      exact ⟨.Ref (some nl), rfl, Or.inr ⟨rfl, rfl⟩⟩
    | some old =>
      exact Option.noConfusion h

/-- Witness for C7: a successful assignment on a lifetime-free reference. -/
theorem C7_with_lifetime_frame_witness :
    ∃ ind2,
      RustType.NonVoid { parts := ["T"] } none false (.Ref (some "a")) false =
        RustType.NonVoid { parts := ["T"] } none false ind2 false ∧
      (ind2 = .Ref Option.none ∨
       (RustTypeIndirection.Ref Option.none = .Ref Option.none ∧
        ind2 = .Ref (some "a"))) :=
  C7_with_lifetime_frame.2 { parts := ["T"] } none false (.Ref Option.none)
    false "a"
    (RustType.NonVoid { parts := ["T"] } none false (.Ref (some "a")) false)
    rfl

/-- Every operator that is not the conversion variant is listed in
`nonConversionOperators`. -/
theorem mem_nonConversionOperators (op : CppOperator)
    (h : op.is_conversion = false) : op ∈ nonConversionOperators := by
  cases op <;>
    first
      | decide
      | simp [CppOperator.is_conversion] at h

/-- The (suffix, arity) pairs of the non-conversion operators are pairwise
distinct. -/
theorem nonConversionOperators_map_nodup :
    (nonConversionOperators.map
      (fun op =>
        (op.info.function_name_suffix, op.info.arguments_count))).Nodup := by
  decide

/-- Claim C10: for every two distinct non-conversion operator variants, the
pairs (name suffix, argument count) reported by `info` differ: the symbol
together with the reported arity identifies the operator uniquely, even
though several operators share a symbol. -/
theorem C10_suffix_and_arity_identify_operator :
    ∀ op1 op2 : CppOperator,
      op1.is_conversion = false → op2.is_conversion = false → op1 ≠ op2 →
      (op1.info.function_name_suffix, op1.info.arguments_count) ≠
        (op2.info.function_name_suffix, op2.info.arguments_count) := by
  intro op1 op2 h1 h2 hne heq
  exact hne (List.inj_on_of_nodup_map nonConversionOperators_map_nodup
    (mem_nonConversionOperators op1 h1)
    (mem_nonConversionOperators op2 h2) heq)

/-- Witness for C10: addition and unary plus share the symbol but differ in
the reported pair. -/
theorem C10_suffix_and_arity_identify_operator_witness :
    (CppOperator.Addition.info.function_name_suffix,
     CppOperator.Addition.info.arguments_count) ≠
      (CppOperator.UnaryPlus.info.function_name_suffix,
       CppOperator.UnaryPlus.info.arguments_count) :=
  C10_suffix_and_arity_identify_operator .Addition .UnaryPlus rfl rfl
    (by decide)

end Ritual
